import Mathlib

/-!
# Drishti: Blink-camera → Telegram motion-alert relay — verification model

Shallow embedding of the three Python modules of the repository:

* `src/monitor.py` — `BlinkMonitor`: the run loop and per-event processing.
* `src/telegram_handler.py` — `TelegramHandler`: command handlers, the
  `_running` connection flag, and alert sending.
* `src/blink_handler.py` — `BlinkLocalHandler` / `BlinkFileHandler`: camera
  discovery over the local storage directory and the file-creation watcher.

External side effects (Telegram messages, camera verbs, log lines) are
reified as an `Action` trace, and each fallible external call is given an
explicit Boolean outcome parameter (`true` = the call returns normally,
`false` = the call raises); exception control flow (`try`/`except`) is then
translated by case analysis on these outcomes.  Python handlers that catch
all exceptions internally are total functions on the trace level.

The cloud-variant `BlinkHandler` (with its `check_motion` edge detector) is
imported by `monitor.py` but its module is not part of the source tree; the
motion state tracker is therefore modelled from the spec (see
`checkMotionCycle`).
-/

namespace Drishti

/-- One observable side effect of the program: an outbound Telegram message,
a reply to a command, a camera verb on the Blink backend, or a log line. -/
inductive Action where
  | sendText (msg : String)
  | sendVideo (caption : String)
  | replyText (msg : String)
  | replyPhoto (caption : String)
  | replyVideo (caption : String)
  | snapPicture (camera : String)
  | recordVideo (camera : String)
  | refresh
  | logInfo (msg : String)
  | logError (msg : String)
deriving DecidableEq, Repr

/-- An action that reaches the camera event source to fetch media
(`camera.snap_picture()`, `camera.record_video()`, `blink.refresh()`). -/
def Action.isMediaFetch : Action → Bool
  | .snapPicture _ => true
  | .recordVideo _ => true
  | .refresh => true
  | _ => false

/-- A delivered text alert (`bot.send_message`). -/
def Action.isSentText : Action → Bool
  | .sendText _ => true
  | _ => false

/-- A delivered media alert (`bot.send_video`). -/
def Action.isSentVideo : Action → Bool
  | .sendVideo _ => true
  | _ => false

/-- A logged error (`logger.error`). -/
def Action.isLogError : Action → Bool
  | .logError _ => true
  | _ => false

/-- A trace consisting of exactly one user-facing textual reply. -/
def isSingleUserReply : List Action → Bool
  | [.replyText _] => true
  | _ => false

/-! ## Motion State Tracker (cloud variant)

`monitor.py` imports `BlinkHandler` from `blink_handler`, but the source tree
only contains `BlinkLocalHandler`; the cloud variant with `check_motion` is
missing.  The tracker below is modelled from the spec. -/

/-- Modelled from the spec: the missing cloud-variant
`BlinkHandler.check_motion` (Motion State Tracker, spec §4.2).  One poll
cycle: for each known camera compare the current boolean sample to the
stored per-camera flag; emit an event for the camera iff the sample is
`true` and the stored flag is `false`; afterwards overwrite the stored flag
of every known camera with its current sample unconditionally.  Returns the
updated flag map and the list of cameras that fired this cycle. -/
def checkMotionCycle (cameras : List String) (flags : String → Bool)
    (sample : String → Bool) : (String → Bool) × List String :=
  (fun c => if c ∈ cameras then sample c else flags c,
   cameras.filter (fun c => sample c && !flags c))

/-- Modelled from the spec: repeated poll cycles of the Motion State Tracker,
one entry of `samples` per cycle, collecting the per-cycle event lists. -/
def checkMotionRun (cameras : List String) (flags : String → Bool) :
    List (String → Bool) → List (List String)
  | [] => []
  | s :: rest =>
      (checkMotionCycle cameras flags s).2 ::
        checkMotionRun cameras (checkMotionCycle cameras flags s).1 rest

/-- Number of cycles in which camera `c` fired an event. -/
def eventsFor (c : String) (runs : List (List String)) : Nat :=
  runs.countP (fun ev => c ∈ ev)

/-- Specification-side count of maximal runs of consecutive `true` samples,
relative to a baseline `prev` for the sample before the sequence: pair each
sample with its predecessor and count the positions whose sample is `true`
while the predecessor is `false` (exactly the starts of maximal runs). -/
def runStartCount (prev : Bool) (l : List Bool) : Nat :=
  (l.zip (prev :: l)).countP (fun p => p.1 && !p.2)

/-- Number of maximal runs of consecutive `true` samples in a sequence,
with the virtual sample before the start taken as `false` (idle camera). -/
def maximalTrueRuns (l : List Bool) : Nat :=
  runStartCount false l

/-! ## TelegramHandler (`src/telegram_handler.py`)

Mutable state: the `_running` connection flag of `TelegramHandler` and the
`cameras` dict of `BlinkLocalHandler` (name → path).  The cloud camera dict
`blink_handler.blink.cameras` used by `cmd_get_photo`/`cmd_get_video`
belongs to the external blinkpy client and is passed in as the list of its
keys (`cloudCams`).  Each handler returns the updated state and the trace
of external actions it performed. -/

structure SysState where
  running : Bool
  cameras : List (String × String)
deriving DecidableEq, Repr

/-- `TelegramHandler.is_running` (telegram_handler.py:159-161): returns the
`_running` flag. -/
def is_running (s : SysState) : Bool :=
  s.running

/-- The `HELP_TEXT` attribute (telegram_handler.py:47-65). -/
def HELP_TEXT : String :=
  "\n🤖 *Available Commands*\n\n📸 */dgetphoto* <camera_name>\n   Get a current photo from specified camera\n   Example: `/dgetphoto front_door`\n\n🎥 */dgetvideo* <camera_name>\n   Get a 5-second video from specified camera\n   Example: `/dgetvideo backyard`\n\n⏹ */ddisconnect*\n   Stop all monitoring until app restart\n\nℹ️ */dhelp*\n   Show this help message\n\n*Note:* Replace <camera_name> with your actual camera name\n"

/-- `TelegramHandler.cmd_get_photo` (telegram_handler.py:85-115).
`args` are `context.args`; Python's `args[0] if args else None` followed by
`if not camera_name` treats both a missing argument and an empty-string
argument as "no camera name".  `snapOk`/`refreshOk` are the outcomes of the
fallible remote calls `camera.snap_picture()` and `blink.refresh()` inside
the `try`; when one raises, the `except` logs and replies with an error
text.  Replies themselves are modelled as infallible. -/
def cmd_get_photo (s : SysState) (cloudCams : List String)
    (args : List String) (snapOk refreshOk : Bool) :
    SysState × List Action :=
  if !s.running then
    (s, [.replyText "Bot is disconnected. Please restart the application."])
  else if args.headD "" = "" then
    (s, [.replyText "Please specify a camera name: /dgetphoto <camera_name>"])
  else if !(cloudCams.contains (args.headD "")) then
    (s, [.replyText ("Camera '" ++ args.headD "" ++ "' not found")])
  else if !snapOk then
    (s, [.logError "Error in dgetphoto command",
         .replyText "Error getting photo"])
  else if !refreshOk then
    (s, [.snapPicture (args.headD ""),
         .logError "Error in dgetphoto command",
         .replyText "Error getting photo"])
  else
    (s, [.snapPicture (args.headD ""), .refresh,
         .replyPhoto ("Current photo from " ++ args.headD "")])

/-- `TelegramHandler.cmd_get_video` (telegram_handler.py:117-147), the exact
analogue of `cmd_get_photo` with `camera.record_video()` in place of
`camera.snap_picture()`. -/
def cmd_get_video (s : SysState) (cloudCams : List String)
    (args : List String) (recordOk refreshOk : Bool) :
    SysState × List Action :=
  if !s.running then
    (s, [.replyText "Bot is disconnected. Please restart the application."])
  else if args.headD "" = "" then
    (s, [.replyText "Please specify a camera name: /dgetvideo <camera_name>"])
  else if !(cloudCams.contains (args.headD "")) then
    (s, [.replyText ("Camera '" ++ args.headD "" ++ "' not found")])
  else if !recordOk then
    (s, [.logError "Error in dgetvideo command",
         .replyText "Error getting video"])
  else if !refreshOk then
    (s, [.recordVideo (args.headD ""),
         .logError "Error in dgetvideo command",
         .replyText "Error getting video"])
  else
    (s, [.recordVideo (args.headD ""), .refresh,
         .replyVideo ("5-second video from " ++ args.headD "")])

/-- `TelegramHandler.cmd_disconnect` (telegram_handler.py:149-157).  Inside
the `try`, `self._running = False` executes before the confirmation reply;
`replyOk` is the outcome of `update.message.reply_text`, whose exception is
caught and logged, so the flag is `false` on every exit path. -/
def cmd_disconnect (s : SysState) (replyOk : Bool) : SysState × List Action :=
  ({ s with running := false },
   if replyOk then
     [.replyText "Bot disconnected. The application will stop monitoring until restarted."]
   else
     [.logError "Error in ddisconnect command"])

/-- `TelegramHandler.cmd_help` (telegram_handler.py:188-197).  Note: unlike
`cmd_get_photo`/`cmd_get_video`, there is no `_running` guard; the help text
is sent regardless of the connection flag.  `replyOk` is the outcome of the
first `reply_text`; on its failure the `except` logs and sends a fallback. -/
def cmd_help (s : SysState) (replyOk : Bool) : SysState × List Action :=
  (s,
   if replyOk then [.replyText HELP_TEXT]
   else [.logError "Error sending help message",
         .replyText "Error displaying help message. Please try again."])

/-- `TelegramHandler.send_motion_alert` (telegram_handler.py:163-186).
Immediately returns when `_running` is `false`.  Otherwise the `try` sends
the text alert (`sendMsgOk`), then, when a `video_path` is given, opens the
file (`openOk`, raising for a missing file) and sends the video
(`sendVideoOk`); the first raising call jumps to the `except`, which logs
the error.  Only a fully successful body reaches `logger.info`. -/
def send_motion_alert (s : SysState) (camera_name : String)
    (video_path : Option String) (sendMsgOk openOk sendVideoOk : Bool) :
    List Action :=
  if !s.running then []
  else if !sendMsgOk then [.logError "Error sending Telegram alert"]
  else
    let text : List Action := [.sendText ("🚨 Motion detected on camera: " ++ camera_name)]
    match video_path with
    | none => text ++ [.logInfo ("Alert sent for camera " ++ camera_name)]
    | some _ =>
      if !openOk then text ++ [.logError "Error sending Telegram alert"]
      else if !sendVideoOk then text ++ [.logError "Error sending Telegram alert"]
      else text ++ [.sendVideo ("Motion video from " ++ camera_name),
                    .logInfo ("Alert sent for camera " ++ camera_name)]

/-! ## BlinkMonitor (`src/monitor.py`) -/

/-- One motion event as consumed by `BlinkMonitor.process_motion_events`,
together with the outcomes of the fallible external calls made while
processing it: `downloadOk` for `camera.video_to_file`, `removeOk` for
`os.remove`, and the three outcomes of the calls inside
`send_motion_alert`. -/
structure MotionEvt where
  name : String
  downloadOk : Bool
  sendMsgOk : Bool
  openOk : Bool
  sendVideoOk : Bool
  removeOk : Bool
deriving DecidableEq, Repr

/-- The `try` body of the per-event loop of
`BlinkMonitor.process_motion_events` (monitor.py:56-64): download the video,
send the alert (which never raises — it catches internally), remove the
temp file.  Returns the actions performed up to the first raising call and
whether the body raised. -/
def processEventBody (s : SysState) (e : MotionEvt) : List Action × Bool :=
  if !e.downloadOk then ([], true)
  else
    let acts := send_motion_alert s e.name (some ("motion_" ++ e.name ++ ".mp4"))
      e.sendMsgOk e.openOk e.sendVideoOk
    if e.removeOk then (acts, false) else (acts, true)

/-- One iteration of the per-event loop of
`BlinkMonitor.process_motion_events` (monitor.py:49-66): the `except` around
the body catches any exception and logs it, so a single event's failure
never escapes. -/
def processEvent (s : SysState) (e : MotionEvt) : List Action :=
  let r := processEventBody s e
  r.1 ++ if r.2 then [.logError "Error processing motion event"] else []

/-- `BlinkMonitor.process_motion_events` (monitor.py:44-66): returns
immediately when `is_running()` is `false`, otherwise processes every event
in order, each inside its own `try`/`except`. -/
def process_motion_events (s : SysState) (events : List MotionEvt) :
    List Action :=
  if !(is_running s) then []
  else (events.map (processEvent s)).flatten

/-- Outcome of one iteration of the `while True` loop of
`BlinkMonitor.monitor_loop`: either the loop `break`s, or it sleeps the
given number of seconds and runs the next iteration. -/
inductive LoopOutcome where
  | stopped
  | continueAfter (delaySeconds : Nat)
deriving DecidableEq, Repr

/-- One iteration of `BlinkMonitor.monitor_loop` (monitor.py:81-96).  The
`try` first checks `is_running()` and `break`s when it is `false`; otherwise
it calls `check_motion` (`checkMotionRaises` is its outcome), processes any
events, and sleeps 30 s.  Any exception inside the iteration is caught by
the `except`, logged, and followed by a 60 s sleep. -/
def monitorIteration (s : SysState) (checkMotionRaises : Bool)
    (events : List MotionEvt) : LoopOutcome × List Action :=
  if !(is_running s) then
    (.stopped, [.logInfo "Bot disconnected. Stopping monitor loop."])
  else if checkMotionRaises then
    (.continueAfter 60, [.logError "Error in monitoring loop"])
  else
    (.continueAfter 30, process_motion_events s events)

/-! ## BlinkLocalHandler / BlinkFileHandler (`src/blink_handler.py`) -/

/-- One entry yielded by `aiofiles.os.scandir` over the storage directory. -/
structure Entry where
  name : String
  path : String
  isDir : Bool
deriving DecidableEq, Repr

/-- Python dict assignment `cameras[name] = {...}` on the association-list
model of the `cameras` dict: overwrite in place when the key exists,
otherwise append. -/
def dictInsert (cams : List (String × String)) (k v : String) :
    List (String × String) :=
  if cams.any (fun p => p.1 = k) then
    cams.map (fun p => if p.1 = k then (k, v) else p)
  else cams ++ [(k, v)]

/-- `BlinkLocalHandler._discover_cameras` (blink_handler.py:58-69): scan the
storage directory and record every directory entry in the `cameras` dict,
keyed by its name.  (A `scandir` failure is caught and logged, leaving the
dict as is; `entries` here is the successful enumeration.) -/
def discover_cameras (entries : List Entry) (cams : List (String × String)) :
    List (String × String) :=
  entries.foldl (fun acc e => if e.isDir then dictInsert acc e.name e.path else acc)
    cams

/-- The set of known CameraIds after discovery: the keys of the `cameras`
dict. -/
def cameraIds (cams : List (String × String)) : List String :=
  cams.map (fun p => p.1)

/-- A filesystem path, as its list of components; `Path(p).parent.name` is
the second-to-last component. -/
def parentName (path : List String) : String :=
  path.dropLast.getLastD ""

/-- The last path component (the file name). -/
def fileName (path : List String) : String :=
  path.getLastD ""

/-- Python's `str.endswith`, on the character-list view of strings. -/
def endsWithStr (s suffix : String) : Bool :=
  suffix.data.isSuffixOf s.data

/-- `BlinkLocalHandler._handle_new_video` (blink_handler.py:71-79): attribute
the new file to the camera named by its immediate parent directory; when
that name is not a known camera, do nothing.  Returns the camera the motion
event is attributed to, or `none` when the event is dropped. -/
def handle_new_video (cams : List (String × String)) (path : List String) :
    Option String :=
  let camera_name := parentName path
  if camera_name ∈ cameraIds cams then some camera_name else none

/-- `BlinkFileHandler.on_created` (blink_handler.py:115-117): ignore
directory events and files not ending in `.mp4`; otherwise invoke
`_handle_new_video` on the created path. -/
def on_created (cams : List (String × String)) (isDirectory : Bool)
    (path : List String) : Option String :=
  if !isDirectory && endsWithStr (fileName path) ".mp4" then
    handle_new_video cams path
  else none

/-! ## Whole-process step relation

Every state-touching operation any component of the repository can perform,
with its external inputs and call outcomes.  Used to express temporal
invariants of the shared `SysState`. -/

inductive Op where
  | opGetPhoto (cloudCams : List String) (args : List String)
      (snapOk refreshOk : Bool)
  | opGetVideo (cloudCams : List String) (args : List String)
      (recordOk refreshOk : Bool)
  | opDisconnect (replyOk : Bool)
  | opHelp (replyOk : Bool)
  | opAlert (camera_name : String) (video_path : Option String)
      (sendMsgOk openOk sendVideoOk : Bool)
  | opProcessEvents (events : List MotionEvt)
  | opIteration (checkMotionRaises : Bool) (events : List MotionEvt)
  | opDiscover (entries : List Entry)
deriving Repr

/-- Effect of one operation on the shared state.  Command handlers and the
alert/monitor code only read `_running` — the single write to the flag in
the whole repository is `self._running = False` in `cmd_disconnect`
(telegram_handler.py:152) — and `_discover_cameras` only writes the
`cameras` dict. -/
def stepOp (s : SysState) : Op → SysState
  | .opGetPhoto cloudCams args snapOk refreshOk =>
      (cmd_get_photo s cloudCams args snapOk refreshOk).1
  | .opGetVideo cloudCams args recordOk refreshOk =>
      (cmd_get_video s cloudCams args recordOk refreshOk).1
  | .opDisconnect replyOk => (cmd_disconnect s replyOk).1
  | .opHelp replyOk => (cmd_help s replyOk).1
  | .opAlert _ _ _ _ _ => s
  | .opProcessEvents _ => s
  | .opIteration _ _ => s
  | .opDiscover entries => { s with cameras := discover_cameras entries s.cameras }

/-- Run a sequence of operations from a state. -/
def runOps (s : SysState) (ops : List Op) : SysState :=
  ops.foldl stepOp s

end Drishti

namespace Drishti

theorem runStartCount_cons (prev s : Bool) (rest : List Bool) :
    runStartCount prev (s :: rest) =
      (if s && !prev then 1 else 0) + runStartCount s rest := by
  simp only [runStartCount, List.zip_cons_cons, List.countP_cons]
  omega

theorem eventsFor_checkMotionRun (cameras : List String) (c : String)
    (hc : c ∈ cameras) (flags : String → Bool)
    (samples : List (String → Bool)) :
    eventsFor c (checkMotionRun cameras flags samples) =
      runStartCount (flags c) (samples.map (fun s => s c)) := by
  induction samples generalizing flags with
  | nil => rfl
  | cons s rest ih =>
      simp only [checkMotionRun, eventsFor, List.countP_cons, List.map_cons,
        runStartCount_cons] at ih ⊢
      rw [ih]
      simp only [checkMotionCycle, List.mem_filter, hc, if_pos hc]
      rcases h1 : s c <;> rcases h2 : flags c <;>
        simp [h1, h2, hc, Nat.add_comm]

/-- C1: for every known camera whose stored flag starts idle (`false`) and
every sequence of boolean motion samples, the Motion State Tracker emits
exactly one event per maximal run of consecutive `true` samples; moreover,
in every single cycle an event fires for the camera iff the current sample
is `true` and the stored flag is `false`, and the stored flag is always
overwritten with the current sample. -/
theorem motion_tracker_one_event_per_maximal_run (cameras : List String)
    (c : String) (hc : c ∈ cameras) (flags : String → Bool)
    (hidle : flags c = false) (samples : List (String → Bool)) :
    eventsFor c (checkMotionRun cameras flags samples) =
      maximalTrueRuns (samples.map (fun s => s c)) ∧
    ∀ (g smp : String → Bool),
      (checkMotionCycle cameras g smp).1 c = smp c ∧
      (c ∈ (checkMotionCycle cameras g smp).2 ↔ smp c = true ∧ g c = false) := by
  refine ⟨?_, ?_⟩
  · rw [eventsFor_checkMotionRun cameras c hc flags samples, hidle]
    rfl
  · intro g smp
    refine ⟨by simp [checkMotionCycle, hc], ?_⟩
    simp [checkMotionCycle, List.mem_filter, hc]

/-- The tracker theorem at the spec's own example: one camera, samples
`[F,F,T,T,T,F,T]`, initially idle — and that run count evaluates to 2. -/
theorem motion_tracker_one_event_per_maximal_run_witness :
    "front_door" ∈ ["front_door"] ∧
    (fun _ : String => false) "front_door" = false ∧
    (eventsFor "front_door"
        (checkMotionRun ["front_door"] (fun _ => false)
          [fun _ => false, fun _ => false, fun _ => true, fun _ => true,
           fun _ => true, fun _ => false, fun _ => true]) =
      maximalTrueRuns
        ([fun _ => false, fun _ => false, fun _ => true, fun _ => true,
          fun _ => true, fun _ => false, fun _ => true].map
          (fun s => s "front_door")) ∧
      ∀ (g smp : String → Bool),
        (checkMotionCycle ["front_door"] g smp).1 "front_door" = smp "front_door" ∧
        ("front_door" ∈ (checkMotionCycle ["front_door"] g smp).2 ↔
          smp "front_door" = true ∧ g "front_door" = false)) ∧
    eventsFor "front_door"
        (checkMotionRun ["front_door"] (fun _ => false)
          [fun _ => false, fun _ => false, fun _ => true, fun _ => true,
           fun _ => true, fun _ => false, fun _ => true]) = 2 :=
  ⟨by decide, rfl,
   motion_tracker_one_event_per_maximal_run ["front_door"] "front_door"
     (by decide) (fun _ => false) rfl _,
   by decide⟩

/-- C10: `cmd_disconnect` assigns `_running = False` before attempting the
confirmation reply, so the flag is `false` on every exit path; in
particular, when the reply raises, the exception is caught and logged and
the flag stays `false`. -/
theorem disconnect_sets_flag_before_reply (s : SysState) (replyOk : Bool) :
    (cmd_disconnect s replyOk).1.running = false ∧
    (cmd_disconnect s false).1.running = false ∧
    (cmd_disconnect s false).2 = [.logError "Error in ddisconnect command"] :=
  ⟨rfl, rfl, rfl⟩

/-- C6: a file-creation event whose parent directory name is not a known
camera produces no motion event (and `on_created`/`_handle_new_video` are
total — no error path exists in them). -/
theorem unrelated_file_event_dropped (cams : List (String × String))
    (isDirectory : Bool) (path : List String)
    (h : parentName path ∉ cameraIds cams) :
    on_created cams isDirectory path = none := by
  unfold on_created handle_new_video
  split
  · simp [h]
  · rfl

theorem unrelated_file_event_dropped_witness :
    parentName ["stranger", "clip.mp4"] ∉ cameraIds [("cam1", "/st/cam1")] ∧
    on_created [("cam1", "/st/cam1")] false ["stranger", "clip.mp4"] = none :=
  ⟨by decide,
   unrelated_file_event_dropped [("cam1", "/st/cam1")] false
     ["stranger", "clip.mp4"] (by decide)⟩

/-- C7 counterexample: the claim says any new file with a recognized media
extension anywhere under a known camera's subdirectory (including nested
subdirectories) yields a motion event attributed to that camera.  The code
attributes by the immediate parent directory name only and filters on the
`.mp4` suffix only: a `.mp4` in a nested subdirectory of camera `cam1`
yields no event, and a `.jpg` directly in `cam1` yields no event. -/
theorem nested_or_non_mp4_yields_no_event :
    on_created [("cam1", "/st/cam1")] false ["cam1", "sub", "clip.mp4"] = none ∧
    on_created [("cam1", "/st/cam1")] false ["cam1", "photo.jpg"] = none := by
  exact ⟨by decide, by decide⟩

/-- C7 amended: a new file-creation event yields a motion event iff the
event is not for a directory, the file name ends in `.mp4`, and the name of
the file's immediate parent directory is a known camera — and the event is
attributed to that immediate-parent camera.  In particular a `.mp4` created
directly in a known camera's directory fires for that camera, a nested file
fires only when its immediate parent directory itself bears a known camera
name (and is then attributed to that parent), and a non-`.mp4` file never
fires. -/
theorem mp4_event_iff_immediate_parent_known (cams : List (String × String))
    (isDirectory : Bool) (path : List String) :
    on_created cams isDirectory path =
      if !isDirectory && endsWithStr (fileName path) ".mp4"
          && decide (parentName path ∈ cameraIds cams) then
        some (parentName path)
      else none := by
  unfold on_created handle_new_video
  by_cases h1 : isDirectory
  · simp [h1]
  · by_cases h2 : endsWithStr (fileName path) ".mp4"
    · by_cases h3 : parentName path ∈ cameraIds cams <;> simp [h1, h2, h3]
    · simp only [Bool.not_eq_true] at h2
      simp [h1, h2]

theorem cameraIds_dictInsert (cams : List (String × String)) (k v : String) :
    cameraIds (dictInsert cams k v) =
      if k ∈ cameraIds cams then cameraIds cams else cameraIds cams ++ [k] := by
  unfold dictInsert
  by_cases h : k ∈ cameraIds cams
  · have hany : cams.any (fun p => p.1 = k) = true := by
      rw [List.any_eq_true]
      simp only [cameraIds, List.mem_map] at h
      obtain ⟨p, hp, hpk⟩ := h
      exact ⟨p, hp, by simp [hpk]⟩
    rw [if_pos hany, if_pos h]
    simp only [cameraIds, List.map_map]
    apply List.map_congr_left
    intro p _
    simp only [Function.comp_apply]
    split
    · next hpk => exact hpk.symm
    · rfl
  · have hany : cams.any (fun p => p.1 = k) = false := by
      cases hb : cams.any (fun p => p.1 = k) with
      | false => rfl
      | true =>
          rw [List.any_eq_true] at hb
          obtain ⟨p, hp, hpk⟩ := hb
          simp only [decide_eq_true_eq] at hpk
          have hk : k ∈ cameraIds cams := by
            unfold cameraIds
            exact List.mem_map.mpr ⟨p, hp, hpk⟩
          exact absurd hk h
    rw [if_neg (by simp [hany]), if_neg h]
    simp [cameraIds]

theorem cameraIds_dictInsert_mem (cams : List (String × String)) (k v k' : String)
    (h : k' ∈ cameraIds cams) : k' ∈ cameraIds (dictInsert cams k v) := by
  rw [cameraIds_dictInsert]
  split
  · exact h
  · exact List.mem_append_left _ h

theorem cameraIds_dictInsert_self (cams : List (String × String)) (k v : String) :
    k ∈ cameraIds (dictInsert cams k v) := by
  rw [cameraIds_dictInsert]
  split
  · next h => exact h
  · exact List.mem_append_right _ (by simp)

theorem discover_cameras_cons (e : Entry) (rest : List Entry)
    (cams : List (String × String)) :
    discover_cameras (e :: rest) cams =
      discover_cameras rest
        (if e.isDir then dictInsert cams e.name e.path else cams) :=
  rfl

theorem cameraIds_discover_mono (entries : List Entry)
    (cams : List (String × String)) (k : String) (h : k ∈ cameraIds cams) :
    k ∈ cameraIds (discover_cameras entries cams) := by
  induction entries generalizing cams with
  | nil => exact h
  | cons e rest ih =>
      rw [discover_cameras_cons]
      apply ih
      split
      · exact cameraIds_dictInsert_mem _ _ _ _ h
      · exact h

theorem cameraIds_discover_mem (entries : List Entry)
    (cams : List (String × String)) (e : Entry) (he : e ∈ entries)
    (hdir : e.isDir = true) :
    e.name ∈ cameraIds (discover_cameras entries cams) := by
  induction entries generalizing cams with
  | nil => cases he
  | cons e0 rest ih =>
      rw [discover_cameras_cons]
      rcases List.mem_cons.mp he with he0 | hrest
      · subst he0
        rw [if_pos hdir]
        exact cameraIds_discover_mono rest _ _ (cameraIds_dictInsert_self _ _ _)
      · exact ih _ hrest

theorem cameraIds_discover_stable (entries : List Entry)
    (cams : List (String × String))
    (h : ∀ e ∈ entries, e.isDir = true → e.name ∈ cameraIds cams) :
    cameraIds (discover_cameras entries cams) = cameraIds cams := by
  induction entries generalizing cams with
  | nil => rfl
  | cons e rest ih =>
      rw [discover_cameras_cons]
      split
      · next hdir =>
          have hmem : e.name ∈ cameraIds cams := h e (by simp) hdir
          have hkeys : cameraIds (dictInsert cams e.name e.path) = cameraIds cams := by
            rw [cameraIds_dictInsert, if_pos hmem]
          rw [ih (dictInsert cams e.name e.path) ?_, hkeys]
          intro e' he' hdir'
          rw [hkeys]
          exact h e' (List.mem_cons_of_mem _ he') hdir'
      · exact ih _ (fun e' he' hdir' => h e' (List.mem_cons_of_mem _ he') hdir')

/-- C8: running camera discovery a second time over the same directory
entries adds no key and removes no key — the set of CameraIds after the
second `_discover_cameras` call equals the set after the first. -/
theorem discover_cameras_idempotent_ids (entries : List Entry)
    (cams : List (String × String)) :
    cameraIds (discover_cameras entries (discover_cameras entries cams)) =
      cameraIds (discover_cameras entries cams) := by
  apply cameraIds_discover_stable
  intro e he hdir
  exact cameraIds_discover_mem entries cams e he hdir

theorem cmd_get_photo_state (s : SysState) (cloudCams : List String)
    (args : List String) (snapOk refreshOk : Bool) :
    (cmd_get_photo s cloudCams args snapOk refreshOk).1 = s := by
  unfold cmd_get_photo
  repeat' split
  all_goals rfl

theorem cmd_get_video_state (s : SysState) (cloudCams : List String)
    (args : List String) (recordOk refreshOk : Bool) :
    (cmd_get_video s cloudCams args recordOk refreshOk).1 = s := by
  unfold cmd_get_video
  repeat' split
  all_goals rfl

theorem cmd_help_state (s : SysState) (replyOk : Bool) :
    (cmd_help s replyOk).1 = s :=
  rfl

theorem stepOp_running (s : SysState) (op : Op) :
    (stepOp s op).running = s.running ∨ (stepOp s op).running = false := by
  cases op with
  | opGetPhoto cloudCams args snapOk refreshOk =>
      rw [stepOp, cmd_get_photo_state]; exact Or.inl rfl
  | opGetVideo cloudCams args recordOk refreshOk =>
      rw [stepOp, cmd_get_video_state]; exact Or.inl rfl
  | opDisconnect replyOk => exact Or.inr rfl
  | opHelp replyOk => exact Or.inl rfl
  | opAlert c v a b d => exact Or.inl rfl
  | opProcessEvents events => exact Or.inl rfl
  | opIteration r events => exact Or.inl rfl
  | opDiscover entries => exact Or.inl rfl

/-- C2: once the connection flag is `false`, `is_running` stays `false`
after any further sequence of operations of any component — no operation in
the repository ever writes `True` back into `_running`. -/
theorem disconnected_is_permanent (s : SysState)
    (h : is_running s = false) (ops : List Op) :
    is_running (runOps s ops) = false := by
  induction ops generalizing s with
  | nil => exact h
  | cons op rest ih =>
      rw [runOps, List.foldl_cons]
      apply ih
      rcases stepOp_running s op with hop | hop
      · rw [is_running, hop]; exact h
      · rw [is_running, hop]

theorem disconnected_is_permanent_witness :
    is_running ⟨false, []⟩ = false ∧
    is_running
        (runOps ⟨false, []⟩
          [.opHelp true, .opGetPhoto ["front_door"] ["front_door"] true true,
           .opDisconnect true, .opIteration false [],
           .opDiscover [⟨"front_door", "/st/front_door", true⟩],
           .opGetVideo ["front_door"] [] true true]) = false :=
  ⟨rfl, disconnected_is_permanent ⟨false, []⟩ rfl _⟩

/-- C3 counterexample: the claim requires every command handler other than a
disconnection re-statement to be a no-op once disconnected, naming `help`
explicitly — but `cmd_help` has no `_running` guard: in a disconnected
state it still sends the full help text, which is neither empty nor the
disconnection message. -/
theorem cmd_help_still_replies_when_disconnected :
    (cmd_help ⟨false, []⟩ true).2 = [.replyText HELP_TEXT] ∧
    HELP_TEXT ≠ "Bot is disconnected. Please restart the application." ∧
    (cmd_help ⟨false, []⟩ true).2 ≠ [] :=
  ⟨rfl, by decide, by decide⟩

/-- C3 amended: after disconnect, `send_motion_alert` is a no-op and
`cmd_get_photo`/`cmd_get_video` reply only with the disconnection
re-statement (no camera access, no state change) — but `cmd_help` is not a
no-op: it still sends the full help text. -/
theorem after_disconnect_handlers (s : SysState) (h : s.running = false)
    (camera_name : String) (video_path : Option String)
    (a b d : Bool) (cloudCams : List String) (args : List String)
    (snapOk refreshOk recordOk refreshOk2 : Bool) :
    send_motion_alert s camera_name video_path a b d = [] ∧
    (cmd_get_photo s cloudCams args snapOk refreshOk).2 =
      [.replyText "Bot is disconnected. Please restart the application."] ∧
    (cmd_get_video s cloudCams args recordOk refreshOk2).2 =
      [.replyText "Bot is disconnected. Please restart the application."] ∧
    (cmd_help s true).2 = [.replyText HELP_TEXT] := by
  refine ⟨?_, ?_, ?_, rfl⟩
  · rw [send_motion_alert]
    simp [h]
  · rw [cmd_get_photo]
    simp [h]
  · rw [cmd_get_video]
    simp [h]

theorem after_disconnect_handlers_witness :
    (⟨false, []⟩ : SysState).running = false ∧
    (send_motion_alert ⟨false, []⟩ "front_door" (some "/tmp/x.mp4") true true true = [] ∧
     (cmd_get_photo ⟨false, []⟩ ["front_door"] ["front_door"] true true).2 =
       [.replyText "Bot is disconnected. Please restart the application."] ∧
     (cmd_get_video ⟨false, []⟩ ["front_door"] ["front_door"] true true).2 =
       [.replyText "Bot is disconnected. Please restart the application."] ∧
     (cmd_help ⟨false, []⟩ true).2 = [.replyText HELP_TEXT]) :=
  ⟨rfl,
   after_disconnect_handlers ⟨false, []⟩ rfl "front_door" (some "/tmp/x.mp4")
     true true true ["front_door"] ["front_door"] true true true true⟩

/-- C4: a get-photo or get-video command invocation whose first argument is
missing (or empty, which Python's `if not camera_name` treats the same) or
names an unknown camera yields exactly one user-facing textual reply and
performs no media-fetch operation (`snap_picture`, `record_video`,
`refresh`) on the camera backend; both handlers are total, so nothing is
raised. -/
theorem get_media_bad_argument_no_fetch (s : SysState)
    (cloudCams : List String) (args : List String)
    (snapOk refreshOk recordOk refreshOk2 : Bool)
    (h : args.headD "" = "" ∨ cloudCams.contains (args.headD "") = false) :
    isSingleUserReply (cmd_get_photo s cloudCams args snapOk refreshOk).2 = true ∧
    (cmd_get_photo s cloudCams args snapOk refreshOk).2.countP
        Action.isMediaFetch = 0 ∧
    isSingleUserReply (cmd_get_video s cloudCams args recordOk refreshOk2).2 = true ∧
    (cmd_get_video s cloudCams args recordOk refreshOk2).2.countP
        Action.isMediaFetch = 0 := by
  rw [List.headD_eq_head?] at h
  by_cases hr : s.running = true
  · by_cases hh : args.head?.getD "" = ""
    · simp [cmd_get_photo, cmd_get_video, hr, hh, isSingleUserReply,
        Action.isMediaFetch, List.countP_cons, List.headD_eq_head?]
    · rcases h with h | h
      · exact absurd h hh
      · have h' : args.head?.getD "" ∉ cloudCams := by simpa using h
        simp [cmd_get_photo, cmd_get_video, hr, hh, h', isSingleUserReply,
          Action.isMediaFetch, List.countP_cons, List.headD_eq_head?]
  · simp only [Bool.not_eq_true] at hr
    simp [cmd_get_photo, cmd_get_video, hr, isSingleUserReply,
      Action.isMediaFetch, List.countP_cons]

theorem get_media_bad_argument_no_fetch_witness :
    (([] : List String).headD "" = "" ∨
      (["front_door"].contains (([] : List String).headD "")) = false) ∧
    (isSingleUserReply (cmd_get_photo ⟨true, []⟩ ["front_door"] [] true true).2 = true ∧
     (cmd_get_photo ⟨true, []⟩ ["front_door"] [] true true).2.countP
         Action.isMediaFetch = 0 ∧
     isSingleUserReply (cmd_get_video ⟨true, []⟩ ["front_door"] [] true true).2 = true ∧
     (cmd_get_video ⟨true, []⟩ ["front_door"] [] true true).2.countP
         Action.isMediaFetch = 0) :=
  ⟨Or.inl rfl,
   get_media_bad_argument_no_fetch ⟨true, []⟩ ["front_door"] [] true true
     true true (Or.inl rfl)⟩

/-- C5: an in-service `send_motion_alert` whose text send succeeds but whose
media reference fails to resolve — the file cannot be opened, or the video
send raises — delivers exactly one text message, delivers zero media
messages, and logs exactly one error; the function is total, so the call
never raises. -/
theorem alert_media_failure_degrades_to_text (s : SysState)
    (camera_name p : String) (openOk sendVideoOk : Bool)
    (hrun : s.running = true)
    (hfail : openOk = false ∨ sendVideoOk = false) :
    (send_motion_alert s camera_name (some p) true openOk sendVideoOk).countP
        Action.isSentText = 1 ∧
    (send_motion_alert s camera_name (some p) true openOk sendVideoOk).countP
        Action.isSentVideo = 0 ∧
    (send_motion_alert s camera_name (some p) true openOk sendVideoOk).countP
        Action.isLogError = 1 := by
  rcases ho : openOk <;> rcases hv : sendVideoOk <;>
    simp_all [send_motion_alert, Action.isSentText, Action.isSentVideo,
      Action.isLogError, List.countP_cons]

theorem alert_media_failure_degrades_to_text_witness :
    (⟨true, []⟩ : SysState).running = true ∧
    (false = false ∨ true = false) ∧
    ((send_motion_alert ⟨true, []⟩ "front_door" (some "/tmp/motion.mp4")
        true false true).countP Action.isSentText = 1 ∧
     (send_motion_alert ⟨true, []⟩ "front_door" (some "/tmp/motion.mp4")
        true false true).countP Action.isSentVideo = 0 ∧
     (send_motion_alert ⟨true, []⟩ "front_door" (some "/tmp/motion.mp4")
        true false true).countP Action.isLogError = 1) :=
  ⟨rfl, Or.inl rfl,
   alert_media_failure_degrades_to_text ⟨true, []⟩ "front_door"
     "/tmp/motion.mp4" false true rfl (Or.inl rfl)⟩

/-- C9: a failure while processing a single motion event is caught by the
per-event `except` — it is logged and the remaining events of the batch are
still processed — and an exception escaping to the loop-level `except` is
logged and the loop continues after a 60-second backoff, longer than the
normal 30-second cycle delay of a successful iteration. -/
theorem loop_survives_event_errors (s : SysState) (e : MotionEvt)
    (rest events : List MotionEvt) (hrun : s.running = true)
    (hfail : (processEventBody s e).2 = true) :
    process_motion_events s (e :: rest) =
      processEvent s e ++ process_motion_events s rest ∧
    Action.logError "Error processing motion event" ∈ processEvent s e ∧
    monitorIteration s true events =
      (.continueAfter 60, [.logError "Error in monitoring loop"]) ∧
    monitorIteration s false events =
      (.continueAfter 30, process_motion_events s events) ∧
    30 < 60 := by
  refine ⟨?_, ?_, ?_, ?_, by decide⟩
  · simp [process_motion_events, is_running, hrun]
  · simp [processEvent, hfail]
  · simp [monitorIteration, is_running, hrun]
  · simp [monitorIteration, is_running, hrun]

theorem loop_survives_event_errors_witness :
    (⟨true, []⟩ : SysState).running = true ∧
    (processEventBody ⟨true, []⟩ ⟨"front_door", false, true, true, true, true⟩).2 = true ∧
    (process_motion_events ⟨true, []⟩
        [⟨"front_door", false, true, true, true, true⟩] =
      processEvent ⟨true, []⟩ ⟨"front_door", false, true, true, true, true⟩ ++
        process_motion_events ⟨true, []⟩ [] ∧
     Action.logError "Error processing motion event" ∈
       processEvent ⟨true, []⟩ ⟨"front_door", false, true, true, true, true⟩ ∧
     monitorIteration ⟨true, []⟩ true [] =
       (.continueAfter 60, [.logError "Error in monitoring loop"]) ∧
     monitorIteration ⟨true, []⟩ false [] =
       (.continueAfter 30, process_motion_events ⟨true, []⟩ []) ∧
     30 < 60) :=
  ⟨rfl, rfl,
   loop_survives_event_errors ⟨true, []⟩
     ⟨"front_door", false, true, true, true, true⟩ [] [] rfl rfl⟩

end Drishti
